import Mathlib

/-!
Shallow embedding of the `shinydir` auto-move command
(`src/commands/automove.rs`, together with the dispatch in `src/main.rs`).

Paths are modelled as lists of components; the filesystem is a list of
existing paths together with oracles saying which operations fail
(`create_dir_all`, `rename`, `try_exists`).  The executor loop
(automove.rs lines 59-107), the display loop (lines 110-153) and
`print_entries` (lines 158-266) are translated definition by definition.
-/

namespace ShinyDir

/-- A filesystem path, as its list of components (models `std::path::PathBuf`). -/
abbrev Path := List String

/-- Models `Path::parent()`: `None` for an empty path, otherwise the path
without its final component. -/
def parentPath (p : Path) : Option Path :=
  if p.isEmpty then none else some p.dropLast

/-- Rendering of a path for display (models `Path::to_string_lossy`):
the components joined by the separator. -/
def pathToString (p : Path) : String :=
  String.intercalate "/" p

/-- The nonempty prefixes of a path: the directories that
`fs::create_dir_all` brings into existence. -/
def allPrefixes (p : Path) : List Path :=
  (List.range p.length).map (fun i => p.take (i + 1))

/-- Filesystem state: the set of existing paths, plus oracles deciding
which operations fail with an I/O error. -/
structure Fs where
  files : List Path
  createDirFail : Path → Bool
  renameFail : Path → Path → Bool
  existsFail : Path → Bool

/-- Models `fs::create_dir_all(p)`: on success, `p` and all its ancestors
exist afterwards. -/
def Fs.createDirAll (fs : Fs) (p : Path) : Except Unit Fs :=
  if fs.createDirFail p then Except.error ()
  else Except.ok { fs with files := allPrefixes p ++ fs.files }

/-- Models `fs::rename(a, b)`: on success the source is gone and the
destination exists. -/
def Fs.rename (fs : Fs) (a b : Path) : Except Unit Fs :=
  if fs.renameFail a b then Except.error ()
  else Except.ok { fs with files := b :: fs.files.filter (fun q => decide (q ≠ a)) }

/-- Models `Path::try_exists`: either an I/O error, or whether the path exists. -/
def Fs.tryExists (fs : Fs) (p : Path) : Except Unit Bool :=
  if fs.existsFail p then Except.error ()
  else Except.ok (decide (p ∈ fs.files))

/-- One resolved move (struct `AutoMoveResultEntry`): source file and destination. -/
structure AutoMoveResultEntry where
  file : Path
  move_to : Path
deriving DecidableEq, Repr

/-- The error attached to a failed entry, by the site in automove.rs that
produces it (the Rust code builds `anyhow` messages; we keep the kind and
the paths involved). -/
inductive MoveError where
  /-- An entry that already failed during resolution, before the executor ran. -/
  | resolutionError (msg : String)
  /-- automove.rs lines 68-74: `create_dir_all` on the destination's parent failed. -/
  | createDirFailed (dir : Path)
  /-- automove.rs lines 81-84: the destination already exists. -/
  | overwriteConflict (dest : Path)
  /-- automove.rs lines 85-94: the rename itself failed. -/
  | renameFailed (file dest : Path)
  /-- automove.rs lines 96-100: `try_exists` on the destination failed. -/
  | existsCheckFailed (dest : Path)
deriving DecidableEq, Repr

/-- One entry of a rule's result: `Result<AutoMoveResultEntry, anyhow::Error>`. -/
abbrev EntryResult := Except MoveError AutoMoveResultEntry

/-- One auto-move rule (struct `AutoMoveRule`); only the fields read by
automove.rs are modelled. -/
structure AutoMoveRule where
  directory : Path
  custom_name : Option String
  to_script : Option String
deriving DecidableEq, Repr

/-- Modelled from the spec: `display_name()` lives in the `crate::automove`
module, whose source file is not included; the spec says it returns
`custom_name` if present, else a name derived from `directory`. -/
def AutoMoveRule.display_name (r : AutoMoveRule) : String :=
  r.custom_name.getD (pathToString r.directory)

/-- Per-rule result (enum `AutoMoveResult`): the rule's directory is missing,
or a list of per-entry outcomes. -/
inductive AutoMoveResult where
  | DirDoesNotExist (rule : AutoMoveRule)
  | Ok (rule : AutoMoveRule) (entries : List EntryResult)

/-- automove.rs lines 66-79: when not in dry-run mode, ensure the
destination's parent directory exists; a creation failure carries the
error that downgrades the entry. -/
def mkdirStep (dry_run : Bool) (fs : Fs) (entry : AutoMoveResultEntry) :
    Except (Fs × MoveError) Fs :=
  if dry_run then Except.ok fs
  else
    match parentPath entry.move_to with
    | none => Except.ok fs
    | some par =>
      match fs.createDirAll par with
      | Except.ok fs1 => Except.ok fs1
      | Except.error _ => Except.error (fs, MoveError.createDirFailed par)

/-- automove.rs lines 80-104: the overwrite check and, in real mode, the rename. -/
def checkAndMove (dry_run : Bool) (fs : Fs) (entry : AutoMoveResultEntry) :
    Fs × EntryResult :=
  match fs.tryExists entry.move_to with
  | Except.ok true => (fs, Except.error (MoveError.overwriteConflict entry.move_to))
  | Except.ok false =>
    if dry_run then (fs, Except.ok entry)
    else
      match fs.rename entry.file entry.move_to with
      | Except.ok fs2 => (fs2, Except.ok entry)
      | Except.error _ =>
        (fs, Except.error (MoveError.renameFailed entry.file entry.move_to))
  | Except.error _ => (fs, Except.error (MoveError.existsCheckFailed entry.move_to))

/-- automove.rs lines 61-104: processing of one entry of a rule's result.
Entries that already failed resolution are skipped unchanged (lines 62-64). -/
def executeEntry (dry_run : Bool) (fs : Fs) (er : EntryResult) : Fs × EntryResult :=
  match er with
  | Except.error e => (fs, Except.error e)
  | Except.ok entry =>
    match mkdirStep dry_run fs entry with
    | Except.error (fs1, err) => (fs1, Except.error err)
    | Except.ok fs1 => checkAndMove dry_run fs1 entry

/-- automove.rs line 61: the `for entry_res in entries.iter_mut()` loop,
threading the filesystem state. -/
def executeEntries (dry_run : Bool) (fs : Fs) : List EntryResult → Fs × List EntryResult
  | [] => (fs, [])
  | er :: rest =>
    let p := executeEntry dry_run fs er
    let q := executeEntries dry_run p.1 rest
    (q.1, p.2 :: q.2)

/-- automove.rs lines 59-107: the `for result in results.iter_mut()` loop;
only `AutoMoveResult::Ok` results are touched. -/
def executeResults (dry_run : Bool) (fs : Fs) : List AutoMoveResult → Fs × List AutoMoveResult
  | [] => (fs, [])
  | AutoMoveResult.DirDoesNotExist rule :: rest =>
    let q := executeResults dry_run fs rest
    (q.1, AutoMoveResult.DirDoesNotExist rule :: q.2)
  | AutoMoveResult.Ok rule entries :: rest =>
    let p := executeEntries dry_run fs entries
    let q := executeResults dry_run p.1 rest
    (q.1, AutoMoveResult.Ok rule p.2 :: q.2)

/-- Global presentation settings (struct `Settings` of the config). -/
structure Settings where
  color : Bool
  unicode : Bool
deriving DecidableEq, Repr

/-- The `[automove]` section of the config read by automove.rs. -/
structure AutomoveSettings where
  script_warning : Bool
deriving DecidableEq, Repr

/-- The configuration fields read by automove.rs. -/
structure Config where
  settings : Settings
  automove : AutomoveSettings
deriving DecidableEq, Repr

/-- The value built by `crate::automove::from_config`; automove.rs only
reads its `rules` and calls `run()` on it. -/
structure AutoMove where
  rules : List AutoMoveRule
deriving DecidableEq, Repr

/-- One message printed to the error stream, tagged by the `eprintln!` site
in automove.rs that emits it. -/
inductive StderrEvent where
  /-- Lines 28-35: the one-time slow-script notice. -/
  | scriptWarning
  /-- Lines 38-48: the dry-mode notice. -/
  | dryNotice
  /-- Lines 54-56: the blank line after the notices. -/
  | blankLine
  /-- Lines 119-130: `<rule>: Directory does not exist!`. -/
  | dirMissing (name : String)
  /-- Lines 223-225 and 263-265 of `print_entries`: one failed entry's error. -/
  | entryError (err : MoveError)
deriving DecidableEq, Repr

/-- ANSI styling as done by the `colored` crate: wrap the text in an escape
sequence with the given style code. -/
def styled (code : String) (s : String) : String :=
  "\x1b[" ++ code ++ "m" ++ s ++ "\x1b[0m"

/-- automove.rs lines 137-142: one `--list` output line,
`<source> <destination>` with spaces escaped as backslash-space. -/
def fmtListLine (e : AutoMoveResultEntry) : String :=
  (pathToString e.file).replace " " "\\ " ++ " " ++ (pathToString e.move_to).replace " " "\\ "

/-- Lexicographic comparison of paths by component (models `PathBuf`'s `Ord`
used by `Vec::sort`). -/
def pathLe : Path → Path → Bool
  | [], _ => true
  | _ :: _, [] => false
  | a :: as, b :: bs => if a = b then pathLe as bs else decide (a < b)

/-- Insertion into a sorted list, for `sortPaths`. -/
def insertSorted (x : Path) : List Path → List Path
  | [] => [x]
  | y :: ys => if pathLe x y then x :: y :: ys else y :: insertSorted x ys

/-- Models `Vec::sort` on paths (insertion sort; only the sortedness of the
result matters for display). -/
def sortPaths (l : List Path) : List Path :=
  l.foldr insertSorted []

/-- Models `Vec::dedup`: remove consecutive duplicates. -/
def dedupAdjacent : List Path → List Path
  | [] => []
  | [a] => [a]
  | a :: b :: rest =>
    if a = b then dedupAdjacent (b :: rest) else a :: dedupAdjacent (b :: rest)

/-- automove.rs line 239: `path.strip_prefix(&rule.directory).unwrap_or(path)`. -/
def relTo (pre p : Path) : Path :=
  if pre.isPrefixOf p then p.drop pre.length else p

/-- automove.rs line 170: the per-rule checkmark glyph. -/
def checkmarkStr (settings : Settings) : String :=
  if settings.unicode then "" else "OK"

/-- automove.rs line 182: the separator dot glyph. -/
def dotStr (settings : Settings) : String :=
  if settings.unicode then "" else "-"

/-- automove.rs lines 163-167: the rule's display name, italicised when it
has no custom name and color is on. -/
def ruleDisplayName (settings : Settings) (rule : AutoMoveRule) : String :=
  if rule.custom_name.isNone && settings.color then styled "3" rule.display_name
  else rule.display_name

/-- The standard-output lines of `print_entries` (automove.rs lines 158-261):
the per-rule summary line, and the `Moved To` line when some entry moved. -/
def printEntriesStdout (settings : Settings) (rule : AutoMoveRule)
    (entries : List EntryResult) : List String :=
  let display_name := ruleDisplayName settings rule
  if entries.isEmpty then
    let checkmark := checkmarkStr settings
    if settings.color then [styled "34" display_name ++ " " ++ styled "1" (styled "32" checkmark)]
    else [display_name ++ " " ++ checkmark]
  else
    let valid_entries := (entries.filter (fun e => e.isOk)).length
    let errors := (entries.filter (fun e => !e.isOk)).length
    let dot := dotStr settings
    let info :=
      (if valid_entries > 0 then
        [if settings.color then styled "93" (toString valid_entries ++ " files moved")
         else toString valid_entries ++ " files moved"]
       else []) ++
      (if errors > 0 then
        [if settings.color then styled "91" (toString errors ++ " errors")
         else toString errors ++ " errors"]
       else [])
    let info_sep := if settings.color then " " else ", "
    let infoLine :=
      if settings.color then
        styled "34" display_name ++ " " ++ styled "2" (styled "37" dot) ++ " " ++
          String.intercalate info_sep info
      else display_name ++ " " ++ dot ++ " " ++ String.intercalate info_sep info
    let moved_to_dirs_no_dedup :=
      (entries.filterMap Except.toOption).filterMap (fun e => parentPath e.move_to)
    let moved_to_dirs := dedupAdjacent (sortPaths moved_to_dirs_no_dedup)
    if moved_to_dirs.isEmpty then [infoLine]
    else
      let rel_dirs :=
        (moved_to_dirs.map (fun p =>
          (p, (moved_to_dirs_no_dedup.filter (fun q => decide (q = p))).length))).map
          (fun pc => (relTo rule.directory pc.1, pc.2))
      let movedLine :=
        if settings.color then
          styled "30" "=>" ++ " " ++ styled "1" "Moved To" ++ " " ++
            String.intercalate (styled "90" ", ")
              (rel_dirs.map (fun pc =>
                styled "94" (pathToString pc.1) ++ " " ++
                  styled "2" ("(" ++ toString pc.2 ++ ")")))
        else
          "=> Moved To: " ++
            String.intercalate ", "
              (rel_dirs.map (fun pc => pathToString pc.1 ++ " " ++ toString pc.2))
      [infoLine, movedLine]

/-- The error-stream events of `print_entries`: one per failed entry
(automove.rs lines 223-225 and 263-265 print the same error set). -/
def printEntriesStderr (settings : Settings) (rule : AutoMoveRule)
    (entries : List EntryResult) : List StderrEvent :=
  if entries.isEmpty then []
  else
    entries.filterMap (fun e =>
      match e with
      | Except.error err => some (StderrEvent.entryError err)
      | Except.ok _ => none)

/-- automove.rs lines 118-152: stdout lines and stderr events for one result. -/
def displayResult (settings : Settings) (list : Bool) :
    AutoMoveResult → List String × List StderrEvent
  | AutoMoveResult.DirDoesNotExist rule =>
    if list then ([], []) else ([], [StderrEvent.dirMissing rule.display_name])
  | AutoMoveResult.Ok rule entries =>
    if list then
      let line_entries := (entries.filterMap Except.toOption).map fmtListLine
      (if line_entries.isEmpty then [] else line_entries, [])
    else (printEntriesStdout settings rule entries, printEntriesStderr settings rule entries)

/-- automove.rs lines 111-116 for the non-first results: a blank stdout line
precedes each when not in list mode. -/
def displayRest (settings : Settings) (list : Bool) :
    List AutoMoveResult → List String × List StderrEvent
  | [] => ([], [])
  | r :: rest =>
    let d := displayResult settings list r
    let ds := displayRest settings list rest
    ((if list then [] else [""]) ++ d.1 ++ ds.1, d.2 ++ ds.2)

/-- automove.rs lines 110-153: the whole display loop. -/
def displayAll (settings : Settings) (list : Bool) :
    List AutoMoveResult → List String × List StderrEvent
  | [] => ([], [])
  | r :: rest =>
    let d := displayResult settings list r
    let ds := displayRest settings list rest
    (d.1 ++ ds.1, d.2 ++ ds.2)

/-- automove.rs lines 20-155: everything `execute` does after the automove
value has been built.  `runPlan` stands for `automove.run()`
(`crate::automove`, not part of the included sources); the result is the
final filesystem, the stdout lines and the stderr events. -/
def runAutoMove (config : Config) (automove : AutoMove)
    (runPlan : AutoMove → List AutoMoveResult) (list dry_run : Bool) (fs : Fs) :
    Fs × List String × List StderrEvent :=
  let script_warning := config.automove.script_warning &&
    decide (0 < (automove.rules.filterMap (fun rule => rule.to_script)).length)
  let preEvents :=
    (if script_warning then [StderrEvent.scriptWarning] else []) ++
    (if dry_run then [StderrEvent.dryNotice] else [])
  let results := runPlan automove
  let sepEvents := if (script_warning || dry_run) && !list then [StderrEvent.blankLine] else []
  let er := executeResults dry_run fs results
  let disp := displayAll config.settings list er.2
  (er.1, disp.1, preEvents ++ sepEvents ++ disp.2)

/-- main.rs / automove.rs line 17: `target.map(fs::canonicalize).transpose()?`,
with `canonical` the canonicalization oracle. -/
def transposeTarget (canonical : Path → Except String Path) :
    Option Path → Except String (Option Path)
  | none => Except.ok none
  | some t => (canonical t).map some

/-- automove.rs lines 9-156: the full `execute` function.  `fromConfig`
stands for `crate::automove::from_config` (not part of the included
sources); the two `?` sites are the only ways to return an error. -/
def executeCmd (config : Config) (canonical : Path → Except String Path)
    (fromConfig : Option Path → Except String AutoMove)
    (runPlan : AutoMove → List AutoMoveResult)
    (target : Option Path) (list dry_run : Bool) (fs : Fs) :
    Except String (Fs × List String × List StderrEvent) := do
  let parent ← transposeTarget canonical target
  let automove ← fromConfig parent
  Except.ok (runAutoMove config automove runPlan list dry_run fs)

/-- The entries of a plan that are (still) successful resolved moves, in order. -/
def successfulMoves (rs : List AutoMoveResult) : List AutoMoveResultEntry :=
  rs.flatMap (fun r =>
    match r with
    | AutoMoveResult.Ok _ entries => entries.filterMap Except.toOption
    | AutoMoveResult.DirDoesNotExist _ => [])

/-- Whether an entry result is an overwrite-conflict error. -/
def isConflictRes (er : EntryResult) : Bool :=
  match er with
  | Except.error (MoveError.overwriteConflict _) => true
  | _ => false

/-! ### Concrete fixtures used by witnesses and counterexamples -/

/-- A small filesystem on which every operation succeeds. -/
def fsW : Fs :=
  { files := [["inbox", "a.txt"], ["inbox", "dup.txt"], ["docs"], ["docs", "dup.txt"]],
    createDirFail := fun _ => false,
    renameFail := fun _ _ => false,
    existsFail := fun _ => false }

/-- Like `fsW`, but every existence check fails with an I/O error. -/
def fsEF : Fs :=
  { files := [["inbox", "a.txt"], ["inbox", "dup.txt"], ["docs"], ["docs", "dup.txt"]],
    createDirFail := fun _ => false,
    renameFail := fun _ _ => false,
    existsFail := fun _ => true }

/-- Like `fsW`, but the destination's parent directory `docs` does not exist yet. -/
def fsNP : Fs :=
  { files := [["inbox", "a.txt"], ["inbox", "dup.txt"], ["docs", "dup.txt"]],
    createDirFail := fun _ => false,
    renameFail := fun _ _ => false,
    existsFail := fun _ => false }

/-- A resolved move whose destination already exists on `fsW`. -/
def eConf : AutoMoveResultEntry := ⟨["inbox", "dup.txt"], ["docs", "dup.txt"]⟩

/-- A resolved move whose destination is free on `fsW`. -/
def eFree : AutoMoveResultEntry := ⟨["inbox", "a.txt"], ["docs", "a.txt"]⟩

/-- A trivial configuration for witnesses. -/
def cfgW : Config := { settings := { color := false, unicode := false },
                       automove := { script_warning := false } }

/-- An automove value with no rules, for witnesses. -/
def amW : AutoMove := { rules := [] }

/-- A one-rule plan prefix for the entry-isolation witness. -/
def rs1W : List AutoMoveResult := [AutoMoveResult.DirDoesNotExist ⟨["gone"], none, none⟩]

/-- The rule whose entry fails in the entry-isolation witness. -/
def ruleW : AutoMoveRule := ⟨["inbox"], none, none⟩

/-- A one-rule plan suffix for the entry-isolation witness. -/
def rs2W : List AutoMoveResult := [AutoMoveResult.Ok ⟨["other"], none, none⟩ [Except.ok eFree]]

/-- The failing entry of the entry-isolation witness: a resolved move whose
destination is occupied, so it fails at the overwrite check (an execution
step), not at resolution. -/
def bW : EntryResult := Except.ok eConf

/-- The sibling entries after the failing one in the entry-isolation witness. -/
def l2W : List EntryResult := [Except.ok eFree]

/-- Filesystem state after the rules preceding the failing one. -/
def fsAW : Fs := (executeResults false fsW rs1W).1

/-- Outcome of the failing entry of the entry-isolation witness. -/
def pbW : Fs × EntryResult :=
  executeEntry false (executeEntries false fsAW ([] : List EntryResult)).1 bW

/-- Filesystem state after the failing rule's remaining entries. -/
def fsCW : Fs := (executeEntries false pbW.1 l2W).1

/-! ### Helper lemmas -/

lemma mem_allPrefixes_length {q p : Path} (h : q ∈ allPrefixes p) : q.length ≤ p.length := by
  simp only [allPrefixes, List.mem_map, List.mem_range] at h
  obtain ⟨i, _, rfl⟩ := h
  simp [List.length_take]

lemma parentPath_length {m par : Path} (h : parentPath m = some par) :
    m.length = par.length + 1 := by
  unfold parentPath at h
  split at h
  · exact absurd h (by simp)
  · rename_i hne
    obtain rfl : m.dropLast = par := by simpa using h
    have hm : m ≠ [] := by simpa [List.isEmpty_iff] using hne
    have : 0 < m.length := List.length_pos.mpr hm
    simp [List.length_dropLast]
    omega

lemma parentPath_not_mem_allPrefixes {m par : Path} (h : parentPath m = some par) :
    m ∉ allPrefixes par := by
  intro hmem
  have h1 := mem_allPrefixes_length hmem
  have h2 := parentPath_length h
  omega

lemma self_mem_allPrefixes {p : Path} (h : p ≠ []) : p ∈ allPrefixes p := by
  have hlen : 0 < p.length := List.length_pos.mpr h
  simp only [allPrefixes, List.mem_map, List.mem_range]
  exact ⟨p.length - 1, by omega, by rw [Nat.sub_add_cancel hlen]; exact List.take_length p⟩

/-- When the directory-creation oracle does not fail for the destination's
parent, `mkdirStep` succeeds, only adds files, and changes neither the
failure oracles nor the existence of the destination itself. -/
lemma mkdirStep_nofail (dry_run : Bool) (fs : Fs) (e : AutoMoveResultEntry)
    (h : ∀ par, parentPath e.move_to = some par → fs.createDirFail par = false) :
    ∃ fs1, mkdirStep dry_run fs e = Except.ok fs1 ∧
      fs1.existsFail = fs.existsFail ∧ fs1.renameFail = fs.renameFail ∧
      (∀ p, p ∈ fs.files → p ∈ fs1.files) ∧
      ((e.move_to ∈ fs1.files) ↔ (e.move_to ∈ fs.files)) := by
  cases dry_run with
  | true => exact ⟨fs, rfl, rfl, rfl, fun _ hp => hp, Iff.rfl⟩
  | false =>
    unfold mkdirStep
    cases hp : parentPath e.move_to with
    | none => exact ⟨fs, rfl, rfl, rfl, fun _ hq => hq, Iff.rfl⟩
    | some par =>
      refine ⟨{ fs with files := allPrefixes par ++ fs.files }, ?_, rfl, rfl, ?_, ?_⟩
      · simp [Fs.createDirAll, h par hp]
      · intro p hmem
        simp [List.mem_append, hmem]
      · simp only [List.mem_append]
        have := parentPath_not_mem_allPrefixes hp
        tauto

lemma executeEntry_dry_fst (fs : Fs) (er : EntryResult) :
    (executeEntry true fs er).1 = fs := by
  cases er with
  | error e => rfl
  | ok entry =>
    show (checkAndMove true fs entry).1 = fs
    unfold checkAndMove
    cases h : fs.tryExists entry.move_to with
    | error e => rfl
    | ok b => cases b <;> simp

lemma executeEntries_dry_fst (fs : Fs) (l : List EntryResult) :
    (executeEntries true fs l).1 = fs := by
  induction l generalizing fs with
  | nil => rfl
  | cons er rest ih =>
    simp only [executeEntries]
    rw [executeEntry_dry_fst fs er, ih]

lemma executeResults_dry_fst (fs : Fs) (rs : List AutoMoveResult) :
    (executeResults true fs rs).1 = fs := by
  induction rs generalizing fs with
  | nil => rfl
  | cons r rest ih =>
    cases r with
    | DirDoesNotExist rule => simpa [executeResults] using ih fs
    | Ok rule entries =>
      simp only [executeResults]
      rw [executeEntries_dry_fst fs entries, ih]

lemma executeEntries_append (dry_run : Bool) (fs : Fs) (xs ys : List EntryResult) :
    executeEntries dry_run fs (xs ++ ys) =
      ((executeEntries dry_run (executeEntries dry_run fs xs).1 ys).1,
       (executeEntries dry_run fs xs).2 ++
         (executeEntries dry_run (executeEntries dry_run fs xs).1 ys).2) := by
  induction xs generalizing fs with
  | nil => simp [executeEntries]
  | cons er rest ih => simp [executeEntries, ih]

lemma executeEntries_length (dry_run : Bool) (fs : Fs) (l : List EntryResult) :
    (executeEntries dry_run fs l).2.length = l.length := by
  induction l generalizing fs with
  | nil => rfl
  | cons er rest ih => simp [executeEntries, ih]

lemma executeResults_append (dry_run : Bool) (fs : Fs) (xs ys : List AutoMoveResult) :
    executeResults dry_run fs (xs ++ ys) =
      ((executeResults dry_run (executeResults dry_run fs xs).1 ys).1,
       (executeResults dry_run fs xs).2 ++
         (executeResults dry_run (executeResults dry_run fs xs).1 ys).2) := by
  induction xs generalizing fs with
  | nil => simp [executeResults]
  | cons r rest ih => cases r <;> simp [executeResults, ih]

lemma executeResults_length (dry_run : Bool) (fs : Fs) (rs : List AutoMoveResult) :
    (executeResults dry_run fs rs).2.length = rs.length := by
  induction rs generalizing fs with
  | nil => rfl
  | cons r rest ih => cases r <;> simp [executeResults, ih]

lemma if_isEmpty_eq_self {α : Type} (l : List α) :
    (if l.isEmpty then ([] : List α) else l) = l := by
  cases l <;> simp

lemma displayRest_true_eq (settings : Settings) (rs : List AutoMoveResult) :
    displayRest settings true rs = displayAll settings true rs := by
  cases rs <;> simp [displayRest, displayAll]

lemma displayAll_true_stdout (settings : Settings) (rs : List AutoMoveResult) :
    (displayAll settings true rs).1 = (successfulMoves rs).map fmtListLine := by
  induction rs with
  | nil => simp [displayAll, successfulMoves]
  | cons r rest ih =>
    rw [displayAll, displayRest_true_eq]
    cases r with
    | DirDoesNotExist rule => simpa [displayResult, successfulMoves] using ih
    | Ok rule entries =>
      simp only [displayResult, if_true, if_isEmpty_eq_self, successfulMoves,
        List.flatMap_cons, List.map_append]
      rw [ih]
      rfl

lemma scriptWarning_notin_printEntriesStderr (settings : Settings) (rule : AutoMoveRule)
    (entries : List EntryResult) :
    StderrEvent.scriptWarning ∉ printEntriesStderr settings rule entries := by
  unfold printEntriesStderr
  split
  · simp
  · intro hmem
    simp only [List.mem_filterMap] at hmem
    obtain ⟨er, _, heq⟩ := hmem
    cases er <;> simp_all

lemma scriptWarning_notin_displayResult (settings : Settings) (list : Bool)
    (r : AutoMoveResult) :
    StderrEvent.scriptWarning ∉ (displayResult settings list r).2 := by
  cases r with
  | DirDoesNotExist rule =>
    by_cases h : list = true <;> simp_all [displayResult]
  | Ok rule entries =>
    by_cases h : list = true
    · simp_all [displayResult]
    · simp only [displayResult, Bool.not_eq_true] at h ⊢
      simp only [h]
      exact scriptWarning_notin_printEntriesStderr settings rule entries

lemma scriptWarning_notin_displayRest (settings : Settings) (list : Bool)
    (rs : List AutoMoveResult) :
    StderrEvent.scriptWarning ∉ (displayRest settings list rs).2 := by
  induction rs with
  | nil => simp [displayRest]
  | cons r rest ih =>
    simp only [displayRest, List.mem_append]
    rintro (h | h)
    · exact scriptWarning_notin_displayResult settings list r h
    · exact ih h

lemma scriptWarning_notin_displayAll (settings : Settings) (list : Bool)
    (rs : List AutoMoveResult) :
    StderrEvent.scriptWarning ∉ (displayAll settings list rs).2 := by
  cases rs with
  | nil => simp [displayAll]
  | cons r rest =>
    simp only [displayAll, List.mem_append]
    rintro (h | h)
    · exact scriptWarning_notin_displayResult settings list r h
    · exact scriptWarning_notin_displayRest settings list rest h

lemma filterMap_length_pos_iff {α β : Type} (f : α → Option β) (l : List α) :
    0 < (l.filterMap f).length ↔ ∃ a ∈ l, f a ≠ none := by
  rw [List.length_pos]
  constructor
  · intro h
    by_contra hc
    push_neg at hc
    exact h (List.filterMap_eq_nil_iff.mpr (by simpa using hc))
  · rintro ⟨a, ha, hfa⟩ hnil
    exact hfa (List.filterMap_eq_nil_iff.mp hnil a ha)

/-- The overwrite-conflict status of `checkAndMove` depends only on the
existence check, never on the dry-run flag. -/
lemma isConflict_checkAndMove (dry_run : Bool) (fs : Fs) (e : AutoMoveResultEntry) :
    isConflictRes (checkAndMove dry_run fs e).2 =
      (!fs.existsFail e.move_to && decide (e.move_to ∈ fs.files)) := by
  unfold checkAndMove Fs.tryExists
  by_cases hef : fs.existsFail e.move_to = true
  · simp [hef, isConflictRes]
  · simp only [Bool.not_eq_true] at hef
    by_cases hmem : e.move_to ∈ fs.files
    · simp [hef, hmem, isConflictRes]
    · cases dry_run with
      | true => simp [hef, hmem, isConflictRes]
      | false =>
        cases hr : fs.rename e.file e.move_to <;> simp [hef, hmem, hr, isConflictRes]

/-! ### Claim theorems -/

/-- Claim C5: resolution-error passthrough — an entry that is already a
resolution error when the executor starts is left unchanged (same error
value) and no filesystem operation is performed for it, in both modes. -/
theorem c5_resolution_error_passthrough (dry_run : Bool) (fs : Fs) (err : MoveError) :
    executeEntry dry_run fs (Except.error err) = (fs, Except.error err) := rfl

/-- Claim C2: no accidental overwrite — if the destination exists at the time
the entry is processed (and the entry reaches the overwrite check: the
existence query and the parent-directory creation do not fail), the entry is
downgraded to an overwrite-conflict error and the rename is never performed
(no path is ever removed from the filesystem), in both dry and real modes. -/
theorem c2_no_accidental_overwrite (dry_run : Bool) (fs : Fs) (e : AutoMoveResultEntry)
    (hmem : e.move_to ∈ fs.files) (hef : fs.existsFail e.move_to = false)
    (hmk : ∀ par, parentPath e.move_to = some par → fs.createDirFail par = false) :
    (executeEntry dry_run fs (Except.ok e)).2 =
      Except.error (MoveError.overwriteConflict e.move_to) ∧
    ∀ p, p ∈ fs.files → p ∈ (executeEntry dry_run fs (Except.ok e)).1.files := by
  obtain ⟨fs1, hstep, hef1, -, hpres, hiff⟩ := mkdirStep_nofail dry_run fs e hmk
  have hrun : executeEntry dry_run fs (Except.ok e) = checkAndMove dry_run fs1 e := by
    simp [executeEntry, hstep]
  have hcheck : checkAndMove dry_run fs1 e =
      (fs1, Except.error (MoveError.overwriteConflict e.move_to)) := by
    unfold checkAndMove Fs.tryExists
    rw [hef1]
    simp [hef, hiff.mpr hmem]
  rw [hrun, hcheck]
  exact ⟨rfl, hpres⟩

/-- Witness for C2 at a concrete input: moving `inbox/dup.txt` to the occupied
`docs/dup.txt` is reported as an overwrite conflict. -/
theorem c2_no_accidental_overwrite_witness :
    (executeEntry false fsW (Except.ok eConf)).2 =
      Except.error (MoveError.overwriteConflict eConf.move_to) :=
  (c2_no_accidental_overwrite false fsW eConf (by decide) rfl (fun _ _ => rfl)).1

/-- Claim C9 (implicit): if the existence query itself fails, the entry is
downgraded to an error carrying that cause and the move is not performed
(no path is ever removed from the filesystem), in both dry and real modes. -/
theorem c9_exists_check_error (dry_run : Bool) (fs : Fs) (e : AutoMoveResultEntry)
    (hef : fs.existsFail e.move_to = true)
    (hmk : ∀ par, parentPath e.move_to = some par → fs.createDirFail par = false) :
    (executeEntry dry_run fs (Except.ok e)).2 =
      Except.error (MoveError.existsCheckFailed e.move_to) ∧
    ∀ p, p ∈ fs.files → p ∈ (executeEntry dry_run fs (Except.ok e)).1.files := by
  obtain ⟨fs1, hstep, hef1, -, hpres, -⟩ := mkdirStep_nofail dry_run fs e hmk
  have hrun : executeEntry dry_run fs (Except.ok e) = checkAndMove dry_run fs1 e := by
    simp [executeEntry, hstep]
  have hcheck : checkAndMove dry_run fs1 e =
      (fs1, Except.error (MoveError.existsCheckFailed e.move_to)) := by
    unfold checkAndMove Fs.tryExists
    rw [hef1]
    simp [hef]
  rw [hrun, hcheck]
  exact ⟨rfl, hpres⟩

/-- Witness for C9 at a concrete input: on a filesystem whose existence
queries fail, the entry is downgraded to an existence-check error. -/
theorem c9_exists_check_error_witness :
    (executeEntry false fsEF (Except.ok eFree)).2 =
      Except.error (MoveError.existsCheckFailed eFree.move_to) :=
  (c9_exists_check_error false fsEF eFree rfl (fun _ _ => rfl)).1

/-- Claim C10 (implicit): in real mode the parent directory is created
before the overwrite check, so an entry that ends as an overwrite conflict
can still have mutated the filesystem — afterwards the parent exists and the
filesystem differs from the initial one. -/
theorem c10_mkdir_before_conflict (fs : Fs) (e : AutoMoveResultEntry) (par : Path)
    (hpar : parentPath e.move_to = some par) (hne : par ≠ [])
    (hcd : fs.createDirFail par = false) (hef : fs.existsFail e.move_to = false)
    (hmem : e.move_to ∈ fs.files) (hpmem : par ∉ fs.files) :
    (executeEntry false fs (Except.ok e)).2 =
      Except.error (MoveError.overwriteConflict e.move_to) ∧
    par ∈ (executeEntry false fs (Except.ok e)).1.files ∧
    (executeEntry false fs (Except.ok e)).1 ≠ fs := by
  have hstep : mkdirStep false fs e =
      Except.ok { fs with files := allPrefixes par ++ fs.files } := by
    unfold mkdirStep
    simp [hpar, Fs.createDirAll, hcd]
  have hrun : executeEntry false fs (Except.ok e) =
      checkAndMove false { fs with files := allPrefixes par ++ fs.files } e := by
    simp [executeEntry, hstep]
  have hmem1 : e.move_to ∈ allPrefixes par ++ fs.files := List.mem_append_right _ hmem
  have hcheck : checkAndMove false { fs with files := allPrefixes par ++ fs.files } e =
      ({ fs with files := allPrefixes par ++ fs.files },
        Except.error (MoveError.overwriteConflict e.move_to)) := by
    unfold checkAndMove Fs.tryExists
    simp [hef, hmem1]
  rw [hrun, hcheck]
  refine ⟨rfl, List.mem_append_left _ (self_mem_allPrefixes hne), ?_⟩
  intro hcontra
  have hfe : allPrefixes par ++ fs.files = fs.files := congrArg Fs.files hcontra
  have h1 : par ∈ allPrefixes par ++ fs.files :=
    List.mem_append_left _ (self_mem_allPrefixes hne)
  rw [hfe] at h1
  exact hpmem h1

/-- Witness for C10 at a concrete input: with `docs` absent, the conflicting
entry still causes `docs` to be created. -/
theorem c10_mkdir_before_conflict_witness :
    (executeEntry false fsNP (Except.ok eConf)).2 =
      Except.error (MoveError.overwriteConflict eConf.move_to) ∧
    ["docs"] ∈ (executeEntry false fsNP (Except.ok eConf)).1.files ∧
    (executeEntry false fsNP (Except.ok eConf)).1 ≠ fsNP :=
  c10_mkdir_before_conflict fsNP eConf ["docs"] rfl (by decide) rfl rfl
    (by decide) (by decide)

/-- Claim C1, counterexample: dry-run/execute parity fails for whole plans.
On an initially empty filesystem with two entries moving different files to
the same destination, real execution renames the first file and then reports
an overwrite conflict on the second, while a dry run reports no conflict at
all — the conflict sets differ although the starting state is identical. -/
theorem c1_parity_counterexample :
    ((executeEntries false
        { files := [], createDirFail := fun _ => false,
          renameFail := fun _ _ => false, existsFail := fun _ => false }
        [Except.ok ⟨["a"], ["d", "x"]⟩, Except.ok ⟨["c"], ["d", "x"]⟩]).2.map isConflictRes) ≠
    ((executeEntries true
        { files := [], createDirFail := fun _ => false,
          renameFail := fun _ _ => false, existsFail := fun _ => false }
        [Except.ok ⟨["a"], ["d", "x"]⟩, Except.ok ⟨["c"], ["d", "x"]⟩]).2.map isConflictRes) := by
  decide

/-- Claim C1 as amended: per-entry dry-run/execute parity.  For a single
entry processed from the same filesystem state, and whose directory-creation
step does not fail, the entry is downgraded to an overwrite conflict in dry
mode iff it is in real mode — the destination-existence check is evaluated
identically in both modes.  (Across a multi-entry plan the conflict sets can
differ, because real-mode renames and directory creations change the state
seen by later entries.) -/
theorem c1_per_entry_parity (fs : Fs) (e : AutoMoveResultEntry)
    (hmk : ∀ par, parentPath e.move_to = some par → fs.createDirFail par = false) :
    isConflictRes (executeEntry true fs (Except.ok e)).2 =
      isConflictRes (executeEntry false fs (Except.ok e)).2 := by
  obtain ⟨fs1, hstep, hef1, -, -, hiff⟩ := mkdirStep_nofail false fs e hmk
  have hdry : executeEntry true fs (Except.ok e) = checkAndMove true fs e := rfl
  have hreal : executeEntry false fs (Except.ok e) = checkAndMove false fs1 e := by
    simp [executeEntry, hstep]
  rw [hdry, hreal, isConflict_checkAndMove, isConflict_checkAndMove, hef1]
  congr 1
  exact decide_eq_decide.mpr hiff.symm

/-- Witness for the amended C1 at a concrete input: for the conflicting
entry on `fsW`, dry and real mode agree on the conflict status. -/
theorem c1_per_entry_parity_witness :
    isConflictRes (executeEntry true fsW (Except.ok eConf)).2 =
      isConflictRes (executeEntry false fsW (Except.ok eConf)).2 :=
  c1_per_entry_parity fsW eConf (fun _ _ => rfl)

/-- Claim C3: entry isolation over a whole plan.  When the entry `b` of one
rule fails at an execution step, that entry is downgraded to an error; the
earlier rules' results and the earlier entries of its own rule are
untouched; its later siblings and all later rules are still processed, their
outcomes a function of the threaded filesystem state alone, never of the
error value; and the output keeps one result per entry and one per rule —
the loops never abort or roll back on a failure. -/
theorem c3_entry_isolation (dry_run : Bool) (fs : Fs) (rs₁ : List AutoMoveResult)
    (rule : AutoMoveRule) (l₁ : List EntryResult) (b : EntryResult)
    (l₂ : List EntryResult) (rs₂ : List AutoMoveResult)
    (hfail : (executeEntry dry_run
        (executeEntries dry_run (executeResults dry_run fs rs₁).1 l₁).1 b).2.isOk = false) :
    (∃ err, (executeEntry dry_run
        (executeEntries dry_run (executeResults dry_run fs rs₁).1 l₁).1 b).2 =
          Except.error err) ∧
    executeResults dry_run fs (rs₁ ++ AutoMoveResult.Ok rule (l₁ ++ b :: l₂) :: rs₂) =
      ((executeResults dry_run
          (executeEntries dry_run
            (executeEntry dry_run
              (executeEntries dry_run (executeResults dry_run fs rs₁).1 l₁).1 b).1 l₂).1
          rs₂).1,
       (executeResults dry_run fs rs₁).2 ++
         AutoMoveResult.Ok rule
           ((executeEntries dry_run (executeResults dry_run fs rs₁).1 l₁).2 ++
             (executeEntry dry_run
               (executeEntries dry_run (executeResults dry_run fs rs₁).1 l₁).1 b).2 ::
             (executeEntries dry_run
               (executeEntry dry_run
                 (executeEntries dry_run (executeResults dry_run fs rs₁).1 l₁).1 b).1 l₂).2) ::
         (executeResults dry_run
           (executeEntries dry_run
             (executeEntry dry_run
               (executeEntries dry_run (executeResults dry_run fs rs₁).1 l₁).1 b).1 l₂).1
           rs₂).2) ∧
    (executeEntries dry_run (executeResults dry_run fs rs₁).1 (l₁ ++ b :: l₂)).2.length =
      l₁.length + 1 + l₂.length ∧
    (executeResults dry_run fs (rs₁ ++ AutoMoveResult.Ok rule (l₁ ++ b :: l₂) :: rs₂)).2.length =
      rs₁.length + 1 + rs₂.length := by
  refine ⟨?_, ?_, ?_, ?_⟩
  · rcases h : (executeEntry dry_run
        (executeEntries dry_run (executeResults dry_run fs rs₁).1 l₁).1 b).2 with err | entry
    · exact ⟨err, rfl⟩
    · rw [h] at hfail
      simp [Except.isOk, Except.toBool] at hfail
  · rw [executeResults_append]
    simp only [executeResults]
    rw [executeEntries_append]
    simp only [executeEntries]
  · rw [executeEntries_length]
    simp [List.length_append]
    omega
  · rw [executeResults_length]
    simp [List.length_append]
    omega

/-- Witness for C3 at a concrete input: in a three-rule plan, the middle
rule's first entry fails at the overwrite check (its destination is
occupied); it is downgraded to an error while its sibling entry and the
following rule are still processed, and every entry and rule keeps its slot
in the output. -/
theorem c3_entry_isolation_witness :
    (∃ err, pbW.2 = Except.error err) ∧
    executeResults false fsW
        (rs1W ++ AutoMoveResult.Ok ruleW (([] : List EntryResult) ++ bW :: l2W) :: rs2W) =
      ((executeResults false fsCW rs2W).1,
       (executeResults false fsW rs1W).2 ++
         AutoMoveResult.Ok ruleW
           ((executeEntries false fsAW ([] : List EntryResult)).2 ++
             pbW.2 :: (executeEntries false pbW.1 l2W).2) ::
         (executeResults false fsCW rs2W).2) ∧
    (executeEntries false fsAW (([] : List EntryResult) ++ bW :: l2W)).2.length =
      ([] : List EntryResult).length + 1 + l2W.length ∧
    (executeResults false fsW
        (rs1W ++ AutoMoveResult.Ok ruleW (([] : List EntryResult) ++ bW :: l2W) :: rs2W)).2.length =
      rs1W.length + 1 + rs2W.length :=
  c3_entry_isolation false fsW rs1W ruleW [] bW l2W rs2W (by decide)

/-- Claim C4: dry run performs no filesystem mutation — running the whole
auto-move command in dry mode leaves the filesystem exactly as it was, and a
single entry whose destination does not exist is left as successful. -/
theorem c4_dry_run_no_mutation (config : Config) (automove : AutoMove)
    (runPlan : AutoMove → List AutoMoveResult) (list : Bool) (fs : Fs)
    (e : AutoMoveResultEntry)
    (hef : fs.existsFail e.move_to = false) (hmem : e.move_to ∉ fs.files) :
    (runAutoMove config automove runPlan list true fs).1 = fs ∧
    executeEntry true fs (Except.ok e) = (fs, Except.ok e) := by
  constructor
  · simp only [runAutoMove]
    exact executeResults_dry_fst fs (runPlan automove)
  · show checkAndMove true fs e = (fs, Except.ok e)
    unfold checkAndMove Fs.tryExists
    simp [hef, hmem]

/-- Witness for C4 at a concrete input: a dry run over `fsW` leaves `fsW`
unchanged and keeps the free-destination entry successful. -/
theorem c4_dry_run_no_mutation_witness :
    (runAutoMove cfgW amW (fun _ => []) false true fsW).1 = fsW ∧
    executeEntry true fsW (Except.ok eFree) = (fsW, Except.ok eFree) :=
  c4_dry_run_no_mutation cfgW amW (fun _ => []) false fsW eFree rfl (by decide)

/-- Claim C6: list-mode purity — with the list flag set, standard output is
exactly one line per entry that is still a successful resolved move, each
formatted as the source path, a space, and the destination path with spaces
escaped as backslash-space, and nothing else (no blank separators, no
directory-missing messages, no error text). -/
theorem c6_list_mode_purity (config : Config) (automove : AutoMove)
    (runPlan : AutoMove → List AutoMoveResult) (dry_run : Bool) (fs : Fs) :
    (runAutoMove config automove runPlan true dry_run fs).2.1 =
      (successfulMoves (executeResults dry_run fs (runPlan automove)).2).map fmtListLine := by
  simp only [runAutoMove]
  exact displayAll_true_stdout config.settings _

/-- Claim C7: best-effort exit status — once target canonicalization and
configuration loading have succeeded, the auto-move command returns `Ok` for
every filesystem state and every plan, however many entries or rules fail. -/
theorem c7_best_effort_exit (config : Config) (canonical : Path → Except String Path)
    (fromConfig : Option Path → Except String AutoMove)
    (runPlan : AutoMove → List AutoMoveResult) (target : Option Path)
    (list dry_run : Bool) (fs : Fs) (parent : Option Path) (automove : AutoMove)
    (ht : transposeTarget canonical target = Except.ok parent)
    (hf : fromConfig parent = Except.ok automove) :
    executeCmd config canonical fromConfig runPlan target list dry_run fs =
      Except.ok (runAutoMove config automove runPlan list dry_run fs) := by
  unfold executeCmd
  rw [ht]
  show (fromConfig parent >>= fun automove =>
      Except.ok (runAutoMove config automove runPlan list dry_run fs)) =
    Except.ok (runAutoMove config automove runPlan list dry_run fs)
  rw [hf]
  rfl

/-- Witness for C7 at a concrete input: with a canonicalization oracle and a
configuration loader that succeed, the command returns `Ok` even though the
plan consists only of a missing-directory rule and a failed entry. -/
theorem c7_best_effort_exit_witness :
    executeCmd cfgW (fun p => Except.ok p) (fun _ => Except.ok amW)
        (fun _ => [AutoMoveResult.DirDoesNotExist ⟨["gone"], none, none⟩,
                   AutoMoveResult.Ok ⟨["inbox"], none, none⟩
                     [Except.error (MoveError.resolutionError "bad script output")]])
        (some ["inbox"]) false false fsW =
      Except.ok (runAutoMove cfgW amW
        (fun _ => [AutoMoveResult.DirDoesNotExist ⟨["gone"], none, none⟩,
                   AutoMoveResult.Ok ⟨["inbox"], none, none⟩
                     [Except.error (MoveError.resolutionError "bad script output")]])
        false false fsW) :=
  c7_best_effort_exit cfgW (fun p => Except.ok p) (fun _ => Except.ok amW)
    (fun _ => [AutoMoveResult.DirDoesNotExist ⟨["gone"], none, none⟩,
               AutoMoveResult.Ok ⟨["inbox"], none, none⟩
                 [Except.error (MoveError.resolutionError "bad script output")]])
    (some ["inbox"]) false false fsW (some ["inbox"]) amW rfl rfl

/-- Claim C8: one-time script warning before evaluation — the stderr stream
starts with exactly one script warning when the `script_warning` setting is
on and some rule declares a script, and contains no script warning at all
otherwise; no other part of the stream ever emits it. -/
theorem c8_script_warning_once (config : Config) (automove : AutoMove)
    (runPlan : AutoMove → List AutoMoveResult) (list dry_run : Bool) (fs : Fs) :
    ∃ tail, (runAutoMove config automove runPlan list dry_run fs).2.2 =
      (if config.automove.script_warning = true ∧ ∃ r ∈ automove.rules, r.to_script ≠ none
       then [StderrEvent.scriptWarning] else []) ++ tail ∧
      StderrEvent.scriptWarning ∉ tail := by
  have hb : (config.automove.script_warning &&
      decide (0 < (automove.rules.filterMap (fun rule => rule.to_script)).length)) = true ↔
      (config.automove.script_warning = true ∧ ∃ r ∈ automove.rules, r.to_script ≠ none) := by
    rw [Bool.and_eq_true, decide_eq_true_iff, filterMap_length_pos_iff]
  refine ⟨(if dry_run then [StderrEvent.dryNotice] else []) ++
    ((if ((config.automove.script_warning &&
          decide (0 < (automove.rules.filterMap (fun rule => rule.to_script)).length)) || dry_run)
        && !list then [StderrEvent.blankLine] else []) ++
     (displayAll config.settings list
       (executeResults dry_run fs (runPlan automove)).2).2), ?_, ?_⟩
  · by_cases hc : config.automove.script_warning = true ∧ ∃ r ∈ automove.rules, r.to_script ≠ none
    · have hb1 := hb.mpr hc
      simp only [runAutoMove, hb1, if_pos hc, List.append_assoc]
      simp
    · have hb0 : (config.automove.script_warning &&
          decide (0 < (automove.rules.filterMap (fun rule => rule.to_script)).length)) = false :=
        Bool.eq_false_iff.mpr (fun h => hc (hb.mp h))
      simp only [runAutoMove, hb0, if_neg hc, List.append_assoc]
      simp
  · intro hmem
    rcases List.mem_append.mp hmem with h | h
    · split at h <;> simp_all
    · rcases List.mem_append.mp h with h2 | h2
      · split at h2 <;> simp_all
      · exact scriptWarning_notin_displayAll config.settings list _ h2

end ShinyDir
